import Mathlib

/-!
Verification of the SPI register-access layer of `pifacedigitalio.py`.

The Python module drives an MCP23S17-class SPI GPIO expander.  We embed it
shallowly: the transport and the register file of the expander are modelled
by an explicit state (`PFState`) holding the optional open file descriptor,
the per-board register bytes, and the trace of raw 3-byte SPI frames placed
on the bus.  Python exceptions become an `Except`-style result paired with the
state reached when the exception is raised (side effects before a raise
persist, as in Python).  Machine bytes are `Nat` with explicit bit
operations; Python pin-number arguments, which may be negative, are `Int`.
-/

namespace PiFace

/-- Constant `WRITE_CMD = 0` (`src/pifacedigitalio.py:37`). -/
def WRITE_CMD : Nat := 0

/-- Constant `READ_CMD = 1` (`src/pifacedigitalio.py:38`). -/
def READ_CMD : Nat := 1

/-- I/O direction A register address (`IODIRA = 0x00`). -/
def IODIRA : Nat := 0x00

/-- I/O direction B register address (`IODIRB = 0x01`). -/
def IODIRB : Nat := 0x01

/-- I/O config register address (`IOCON = 0x0A`). -/
def IOCON : Nat := 0x0A

/-- Port A data register address (`GPIOA = 0x12`). -/
def GPIOA : Nat := 0x12

/-- Port B data register address (`GPIOB = 0x13`). -/
def GPIOB : Nat := 0x13

/-- Port A pull-up register address (`GPPUA = 0x0C`). -/
def GPPUA : Nat := 0x0C

/-- Port B pull-up register address (`GPPUB = 0x0D`). -/
def GPPUB : Nat := 0x0D

/-- Constant `OUTPUT_PORT = GPIOA` (`src/pifacedigitalio.py:48`). -/
def OUTPUT_PORT : Nat := GPIOA

/-- Constant `INPUT_PORT = GPIOB` (`src/pifacedigitalio.py:49`). -/
def INPUT_PORT : Nat := GPIOB

/-- Constant `INPUT_PULLUP = GPPUB` (`src/pifacedigitalio.py:50`). -/
def INPUT_PULLUP : Nat := GPPUB

/-- The exception classes of the module (`src/pifacedigitalio.py:59-75`). -/
inductive PFError where
  | initError
  | inputDeviceError
  | pinRangeError
  | ledRangeError
  | relayRangeError
  | switchRangeError
deriving DecidableEq, Repr

/-- One raw 3-byte frame placed on the SPI bus: device opcode, register
address, data byte.  Every call to `spisend` appends one frame. -/
structure SpiFrame where
  opcode : Nat
  port : Nat
  data : Nat
deriving DecidableEq, Repr

/-- The world the module acts on: the module-level `spidev_fd` handle, the
register file of the (up to 8) expander chips — `regs board register` is the
byte the chip at hardware address `board` holds in `register` — and the
trace of SPI frames sent so far. -/
structure PFState where
  spidev_fd : Option Nat
  regs : Nat → Nat → Nat
  trace : List SpiFrame

/-- Function `__get_device_opcode` (`src/pifacedigitalio.py:367-371`):
`0x40 | ((board_num << 1) & 0xE) | (read_write_cmd & 1)`. -/
def get_device_opcode (board_num read_write_cmd : Nat) : Nat :=
  let board_addr_pattern := (board_num <<< 1) &&& 0xE
  let rw_cmd_pattern := read_write_cmd &&& 1
  0x40 ||| board_addr_pattern ||| rw_cmd_pattern

/-- Function `spisend` (`src/pifacedigitalio.py:385-405`) together with the
expander chip the bus frame reaches.  With `spidev_fd == None` it raises
`InitError`
before any bus activity.  Otherwise the 3-byte frame goes on the bus:
the chip at hardware address `(opcode >> 1) & 0x7` answers; a read frame
(opcode bit 0 set) returns the byte of the addressed register, a write
frame stores the data byte there.  The returned triple is the received
buffer unpacked as `operation, port, data` by the callers `read`/`write`. -/
def spisend (st : PFState) (devopcode port data : Nat) :
    PFState × Except PFError (Nat × Nat × Nat) :=
  match st.spidev_fd with
  | none => (st, .error .initError)
  | some _ =>
    let board := (devopcode >>> 1) &&& 0x7
    let st1 : PFState := { st with trace := st.trace ++ [⟨devopcode, port, data⟩] }
    if devopcode &&& 1 = 1 then
      (st1, .ok (devopcode, port, st.regs board port))
    else
      ({ st1 with regs := fun b p => if b = board ∧ p = port then data else st.regs b p },
       .ok (devopcode, port, data))

/-- Function `read` (`src/pifacedigitalio.py:373-377`): read frame, returns
`(port, data)`. -/
def read (st : PFState) (port board_num : Nat) :
    PFState × Except PFError (Nat × Nat) :=
  let devopcode := get_device_opcode board_num READ_CMD
  match spisend st devopcode port 0 with
  | (st1, .error e) => (st1, .error e)
  | (st1, .ok (_, p, d)) => (st1, .ok (p, d))

/-- Function `write` (`src/pifacedigitalio.py:379-383`): write frame, returns
`(port, data)`. -/
def write (st : PFState) (port data board_num : Nat) :
    PFState × Except PFError (Nat × Nat) :=
  let devopcode := get_device_opcode board_num WRITE_CMD
  match spisend st devopcode port data with
  | (st1, .error e) => (st1, .error e)
  | (st1, .ok (_, p, d)) => (st1, .ok (p, d))

/-- Function `read_output` (`src/pifacedigitalio.py:334-337`). -/
def read_output (st : PFState) (board_num : Nat) :
    PFState × Except PFError Nat :=
  match read st OUTPUT_PORT board_num with
  | (st1, .error e) => (st1, .error e)
  | (st1, .ok (_, data)) => (st1, .ok data)

/-- Function `read_input` (`src/pifacedigitalio.py:339-343`): reads the input
data register and inverts all 8 bits (`data ^ 0xff`). -/
def read_input (st : PFState) (board_num : Nat) :
    PFState × Except PFError Nat :=
  match read st INPUT_PORT board_num with
  | (st1, .error e) => (st1, .error e)
  | (st1, .ok (_, data)) => (st1, .ok (data ^^^ 0xFF))

/-- Function `read_pullup` (`src/pifacedigitalio.py:345-348`). -/
def read_pullup (st : PFState) (board_num : Nat) :
    PFState × Except PFError Nat :=
  match read st INPUT_PULLUP board_num with
  | (st1, .error e) => (st1, .error e)
  | (st1, .ok (_, data)) => (st1, .ok data)

/-- Function `write_output` (`src/pifacedigitalio.py:355-358`). -/
def write_output (st : PFState) (data board_num : Nat) :
    PFState × Except PFError Nat :=
  match write st OUTPUT_PORT data board_num with
  | (st1, .error e) => (st1, .error e)
  | (st1, .ok (_, d)) => (st1, .ok d)

/-- Function `write_pullup` (`src/pifacedigitalio.py:350-353`). -/
def write_pullup (st : PFState) (data board_num : Nat) :
    PFState × Except PFError Nat :=
  match write st INPUT_PULLUP data board_num with
  | (st1, .error e) => (st1, .error e)
  | (st1, .ok (_, d)) => (st1, .ok d)

/-- Function `get_pin_bit_mask` (`src/pifacedigitalio.py:227-232`): raises
`PinRangeError` for a pin outside `[0,7]`, otherwise `1 << pin_number`.
Pin numbers are `Int` since Python callers may pass negatives. -/
def get_pin_bit_mask (pin_number : Int) : Except PFError Nat :=
  if pin_number > 7 ∨ pin_number < 0 then .error .pinRangeError
  else .ok (1 <<< pin_number.toNat)

/-- The `while (bit_pattern & 1) == 0` loop of `get_pin_number`
(`src/pifacedigitalio.py:234-244`).  The loop body shifts the pattern right,
increments `pin_number`, and breaks with 0 once `pin_number` exceeds 7, so
it runs at most 8 iterations; the fuel argument makes that explicit and is
never exhausted when started at 8. -/
def get_pin_number_loop : Nat → Nat → Nat → Nat
  | 0, _, pin_number => pin_number
  | fuel + 1, bit_pattern, pin_number =>
    if bit_pattern &&& 1 = 0 then
      if pin_number + 1 > 7 then 0
      else get_pin_number_loop fuel (bit_pattern >>> 1) (pin_number + 1)
    else pin_number

/-- Function `get_pin_number` (`src/pifacedigitalio.py:234-244`): lowest set
bit position, with fallback 0 when no bit is found within 8 positions. -/
def get_pin_number (bit_pattern : Nat) : Nat :=
  get_pin_number_loop 8 bit_pattern 0

/-- Function `digital_write` (`src/pifacedigitalio.py:246-273`): performs a
read-modify-write on the output register.  In Python `old & ~mask` on
nonnegative ints clears the bits of the mask, which on `Nat` is
`Nat.ldiff`. -/
def digital_write (st : PFState) (pin_number : Int) (value : Nat)
    (board_num : Nat) : PFState × Except PFError Unit :=
  match get_pin_bit_mask pin_number with
  | .error e => (st, .error e)
  | .ok pin_bit_mask =>
    match read_output st board_num with
    | (st1, .error e) => (st1, .error e)
    | (st1, .ok old_pin_values) =>
      let new_pin_values :=
        if value ≠ 0 then old_pin_values ||| pin_bit_mask
        else Nat.ldiff old_pin_values pin_bit_mask
      match write_output st1 new_pin_values board_num with
      | (st2, .error e) => (st2, .error e)
      | (st2, .ok _) => (st2, .ok ())

/-- Function `digital_read` (`src/pifacedigitalio.py:275-286`): masks the
inverted input byte and collapses to 1/0 by truthiness. -/
def digital_read (st : PFState) (pin_number : Int) (board_num : Nat) :
    PFState × Except PFError Nat :=
  match read_input st board_num with
  | (st1, .error e) => (st1, .error e)
  | (st1, .ok current_pin_values) =>
    match get_pin_bit_mask pin_number with
    | .error e => (st1, .error e)
    | .ok pin_bit_mask =>
      let result := current_pin_values &&& pin_bit_mask
      (st1, .ok (if result ≠ 0 then 1 else 0))

/-- Per-board body of the `init` loop (`src/pifacedigitalio.py:195-216`):
the five configuration writes then `write_output(0, board_index)`. -/
def init_board (st : PFState) (board_index : Nat) :
    PFState × Except PFError Unit :=
  match write st IOCON 8 board_index with
  | (st1, .error e) => (st1, .error e)
  | (st1, .ok _) =>
    match write st1 GPIOA 0 board_index with
    | (st2, .error e) => (st2, .error e)
    | (st2, .ok _) =>
      match write st2 IODIRA 0 board_index with
      | (st3, .error e) => (st3, .error e)
      | (st3, .ok _) =>
        match write st3 IODIRB 0xFF board_index with
        | (st4, .error e) => (st4, .error e)
        | (st4, .ok _) =>
          match write st4 GPPUB 0xFF board_index with
          | (st5, .error e) => (st5, .error e)
          | (st5, .ok _) =>
            match write_output st5 0 board_index with
            | (st6, .error e) => (st6, .error e)
            | (st6, .ok _) => (st6, .ok ())

/-- Loop `for board_index in range(8)` of `init`, over an explicit list of
board indices. -/
def init_boards (st : PFState) : List Nat → PFState × Except PFError Unit
  | [] => (st, .ok ())
  | b :: rest =>
    match init_board st b with
    | (st1, .error e) => (st1, .error e)
    | (st1, .ok _) => init_boards st1 rest

/-- Function `init` (`src/pifacedigitalio.py:186-216`): opens the SPI device
(the handle becomes some fd) and, when `init_ports`, runs the per-board
configuration loop over board indices 0..7. -/
def init (st : PFState) (init_ports : Bool) : PFState × Except PFError Unit :=
  let st0 : PFState := { st with spidev_fd := some 0 }
  if init_ports then init_boards st0 (List.range 8)
  else (st0, .ok ())

/-- The data of an `InputItem` (`src/pifacedigitalio.py:91-102`): a pin
number and a board number. -/
structure InputItemS where
  pin_num : Int
  board_num : Nat
deriving DecidableEq, Repr

/-- The data of an `OutputItem` (`src/pifacedigitalio.py:104-126`): pin and
board numbers plus `self.current`, set to 0 in `__init__`. -/
structure OutputItemS where
  pin_num : Int
  board_num : Nat
  current : Nat
deriving DecidableEq, Repr

/-- Constructor `OutputItem.__init__` (`src/pifacedigitalio.py:106-108`):
`self.current = 0`. -/
def OutputItem_init (pin_num : Int) (board_num : Nat) : OutputItemS :=
  ⟨pin_num, board_num, 0⟩

/-- Getter `OutputItem.value` (`src/pifacedigitalio.py:110-112`): returns
`self.current`; touches no state, so the world is returned unchanged. -/
def OutputItem_value_get (st : PFState) (item : OutputItemS) : PFState × Nat :=
  (st, item.current)

/-- Setter `OutputItem.value` (`src/pifacedigitalio.py:114-117`): records
`self.current = data`, then delegates to `digital_write`.  The field update
happens before the delegated call, as in the source. -/
def OutputItem_value_set (st : PFState) (item : OutputItemS) (data : Nat) :
    PFState × OutputItemS × Except PFError Unit :=
  let item1 : OutputItemS := { item with current := data }
  match digital_write st item1.pin_num data item1.board_num with
  | (st1, r) => (st1, item1, r)

/-- Getter `InputItem.value` (`src/pifacedigitalio.py:96-98`): delegates to
`digital_read`. -/
def InputItem_value_get (st : PFState) (item : InputItemS) :
    PFState × Except PFError Nat :=
  digital_read st item.pin_num item.board_num

/-- Setter `InputItem.value` (`src/pifacedigitalio.py:100-102`): raises
`InputDeviceError` unconditionally; nothing runs before the raise, so the
world is returned untouched. -/
def InputItem_value_set (st : PFState) (_item : InputItemS) (_data : Nat) :
    PFState × Except PFError Unit :=
  (st, .error .inputDeviceError)

/-- Constructor `LED.__init__` (`src/pifacedigitalio.py:128-135`): index
range check then `OutputItem.__init__`. -/
def LED_init (led_number : Int) (board_num : Nat) :
    Except PFError OutputItemS :=
  if led_number < 0 ∨ led_number > 7 then .error .ledRangeError
  else .ok (OutputItem_init led_number board_num)

/-- Constructor `Relay.__init__` (`src/pifacedigitalio.py:137-144`). -/
def Relay_init (relay_number : Int) (board_num : Nat) :
    Except PFError OutputItemS :=
  if relay_number < 0 ∨ relay_number > 1 then .error .relayRangeError
  else .ok (OutputItem_init relay_number board_num)

/-- Constructor `Switch.__init__` (`src/pifacedigitalio.py:146-153`): range
check then `InputItem.__init__`, which stores pin and board. -/
def Switch_init (switch_number : Int) (board_num : Nat) :
    Except PFError InputItemS :=
  if switch_number < 0 ∨ switch_number > 3 then .error .switchRangeError
  else .ok ⟨switch_number, board_num⟩

/-- The six write frames `init` issues for one board index, in source
order (`src/pifacedigitalio.py:197-216`). -/
def init_board_frames (b : Nat) : List SpiFrame :=
  [⟨get_device_opcode b WRITE_CMD, IOCON, 8⟩,
   ⟨get_device_opcode b WRITE_CMD, GPIOA, 0⟩,
   ⟨get_device_opcode b WRITE_CMD, IODIRA, 0⟩,
   ⟨get_device_opcode b WRITE_CMD, IODIRB, 0xFF⟩,
   ⟨get_device_opcode b WRITE_CMD, GPPUB, 0xFF⟩,
   ⟨get_device_opcode b WRITE_CMD, GPIOA, 0⟩]

/-- The full bring-up trace: the six frames for each board index 0..7 in
order. -/
def init_trace : List SpiFrame :=
  (List.range 8).flatMap init_board_frames

/-- A concrete open state used to instantiate theorems: file descriptor
open, every register holding `0xA5`, empty trace. -/
def testOpenState : PFState :=
  { spidev_fd := some 0, regs := fun _ _ => 0xA5, trace := [] }

/-- A concrete closed state (transport never opened): `spidev_fd = None`. -/
def testClosedState : PFState :=
  { spidev_fd := none, regs := fun _ _ => 0, trace := [] }

/-- A concrete open state whose registers all read `0xFF` (all input lines
inactive at the hardware level). -/
def testFFState : PFState :=
  { spidev_fd := some 0, regs := fun _ _ => 0xFF, trace := [] }

/-- For board indices below 8, the device opcode decodes back to the board
address and carries the read/write bit in bit 0. -/
theorem opcode_decode : ∀ b < 8,
    (get_device_opcode b READ_CMD >>> 1) &&& 0x7 = b ∧
    get_device_opcode b READ_CMD &&& 1 = 1 ∧
    (get_device_opcode b WRITE_CMD >>> 1) &&& 0x7 = b ∧
    get_device_opcode b WRITE_CMD &&& 1 = 0 := by decide

/-- In-range pins get their mask without error. -/
theorem get_pin_bit_mask_ok (p : Int) (h0 : 0 ≤ p) (h7 : p ≤ 7) :
    get_pin_bit_mask p = .ok (1 <<< p.toNat) := by
  rw [get_pin_bit_mask, if_neg]
  omega

/-- C1: for every board number and direction, the device opcode is
`0x40 | ((board_num << 1) & 0x0E) | (1 if Read else 0)`; in particular
`opcode(0, Write) = 0x40`, `opcode(0, Read) = 0x41`,
`opcode(1, Write) = 0x42`. -/
theorem C1_device_opcode (board_num : Nat) :
    get_device_opcode board_num READ_CMD =
      0x40 ||| ((board_num <<< 1) &&& 0x0E) ||| 1 ∧
    get_device_opcode board_num WRITE_CMD =
      0x40 ||| ((board_num <<< 1) &&& 0x0E) ||| 0 ∧
    get_device_opcode 0 WRITE_CMD = 0x40 ∧
    get_device_opcode 0 READ_CMD = 0x41 ∧
    get_device_opcode 1 WRITE_CMD = 0x42 :=
  ⟨rfl, rfl, by decide, by decide, by decide⟩

/-- C5: `get_pin_bit_mask p` is `1 <<< p` for `p ∈ [0,7]` and raises
`PinRangeError` for every `p` outside `[0,7]`. -/
theorem C5_get_pin_bit_mask (p : Int) :
    (0 ≤ p → p ≤ 7 → get_pin_bit_mask p = .ok (1 <<< p.toNat)) ∧
    (p < 0 ∨ 7 < p → get_pin_bit_mask p = .error .pinRangeError) := by
  constructor
  · intro h0 h7
    rw [get_pin_bit_mask, if_neg]
    omega
  · intro h
    rw [get_pin_bit_mask, if_pos]
    omega

/-- Witness for C5 at pins 5, 8 and -1. -/
theorem C5_get_pin_bit_mask_witness :
    get_pin_bit_mask 5 = .ok (1 <<< (5 : Int).toNat) ∧
    get_pin_bit_mask 8 = .error .pinRangeError ∧
    get_pin_bit_mask (-1) = .error .pinRangeError :=
  ⟨(C5_get_pin_bit_mask 5).1 (by decide) (by decide),
   (C5_get_pin_bit_mask 8).2 (by decide),
   (C5_get_pin_bit_mask (-1)).2 (by decide)⟩

/-- C7: setting the value of an `InputItem` raises `InputDeviceError` and
performs no bus transaction: the world, its SPI trace included, is exactly
the one before the call. -/
theorem C7_input_item_set_rejected (st : PFState) (item : InputItemS)
    (data : Nat) :
    InputItem_value_set st item data = (st, .error .inputDeviceError) ∧
    (InputItem_value_set st item data).1.trace = st.trace :=
  ⟨rfl, rfl⟩

/-- C9: any SPI transfer before the transport is opened — and hence any
register read or write — raises `InitError`, leaves the state unchanged and
puts nothing on the bus. -/
theorem C9_spisend_requires_init (st : PFState) (h : st.spidev_fd = none)
    (devopcode port data board_num : Nat) :
    spisend st devopcode port data = (st, .error .initError) ∧
    read st port board_num = (st, .error .initError) ∧
    write st port data board_num = (st, .error .initError) ∧
    (spisend st devopcode port data).1.trace = st.trace := by
  refine ⟨?_, ?_, ?_, ?_⟩ <;> simp [spisend, read, write, h]

/-- Witness for C9 on a concrete never-opened state. -/
theorem C9_spisend_requires_init_witness :
    spisend testClosedState 0x40 0x12 0 = (testClosedState, .error .initError) ∧
    read testClosedState 0x12 0 = (testClosedState, .error .initError) ∧
    write testClosedState 0x12 0 0 = (testClosedState, .error .initError) ∧
    (spisend testClosedState 0x40 0x12 0).1.trace = testClosedState.trace :=
  C9_spisend_requires_init testClosedState rfl 0x40 0x12 0 0

/-- C8: each pin-item constructor validates its own index range: `LED n`
succeeds exactly for `n ∈ [0,7]` and raises `LEDRangeError` otherwise;
`Relay n` for `n ∈ [0,1]` with `RelayRangeError` otherwise; `Switch n` for
`n ∈ [0,3]` with `SwitchRangeError` otherwise. -/
theorem C8_pin_item_ranges (n : Int) (board_num : Nat) :
    (0 ≤ n → n ≤ 7 → LED_init n board_num = .ok (OutputItem_init n board_num)) ∧
    (n < 0 ∨ 7 < n → LED_init n board_num = .error .ledRangeError) ∧
    (0 ≤ n → n ≤ 1 → Relay_init n board_num = .ok (OutputItem_init n board_num)) ∧
    (n < 0 ∨ 1 < n → Relay_init n board_num = .error .relayRangeError) ∧
    (0 ≤ n → n ≤ 3 → Switch_init n board_num = .ok ⟨n, board_num⟩) ∧
    (n < 0 ∨ 3 < n → Switch_init n board_num = .error .switchRangeError) := by
  refine ⟨fun h0 h7 => ?_, fun h => ?_, fun h0 h1 => ?_, fun h => ?_,
    fun h0 h3 => ?_, fun h => ?_⟩
  · rw [LED_init, if_neg]; omega
  · rw [LED_init, if_pos]; omega
  · rw [Relay_init, if_neg]; omega
  · rw [Relay_init, if_pos]; omega
  · rw [Switch_init, if_neg]; omega
  · rw [Switch_init, if_pos]; omega

/-- Witness for C8: `LED 7` succeeds, `LED 8`, `Relay 2` and `Switch 4`
raise their range errors. -/
theorem C8_pin_item_ranges_witness :
    LED_init 7 0 = .ok (OutputItem_init 7 0) ∧
    LED_init 8 0 = .error .ledRangeError ∧
    Relay_init 2 0 = .error .relayRangeError ∧
    Switch_init 4 0 = .error .switchRangeError :=
  ⟨(C8_pin_item_ranges 7 0).1 (by decide) (by decide),
   (C8_pin_item_ranges 8 0).2.1 (by decide),
   (C8_pin_item_ranges 2 0).2.2.2.1 (by decide),
   (C8_pin_item_ranges 4 0).2.2.2.2.2 (by decide)⟩

/-- C10: an `OutputItem` starts with cached value 0; its getter returns the
cached value and issues no bus transaction; its setter records the value and
delegates the write to `digital_write`; the cache can disagree with the
hardware output register when that register was changed by other means
(concretely: after `write_output 0xFF` the getter of a fresh item still
returns 0 while register bit 3 reads 1). -/
theorem C10_output_item_cache (st : PFState) (item : OutputItemS)
    (data : Nat) (pin : Int) (board : Nat) :
    (OutputItem_init pin board).current = 0 ∧
    OutputItem_value_get st item = (st, item.current) ∧
    (OutputItem_value_get st item).1.trace = st.trace ∧
    ((OutputItem_value_set st item data).2.1).current = data ∧
    (OutputItem_value_set st item data).1 =
      (digital_write st item.pin_num data item.board_num).1 ∧
    (OutputItem_value_set st item data).2.2 =
      (digital_write st item.pin_num data item.board_num).2 ∧
    OutputItem_value_get (write_output testOpenState 0xFF 0).1
        (OutputItem_init 3 0) =
      ((write_output testOpenState 0xFF 0).1, 0) ∧
    ((write_output testOpenState 0xFF 0).1.regs 0 OUTPUT_PORT).testBit 3 =
      true := by
  refine ⟨rfl, rfl, rfl, rfl, rfl, rfl, rfl, by decide⟩

/-- C3: `read_input` returns the raw input register byte with all 8 bits
inverted; if the raw byte is `0xFF` then `read_input` returns 0 and
`digital_read` returns 0 for every pin in `[0,7]`; and `digital_read` only
ever returns 0 or 1. -/
theorem C3_read_input_inverted (st : PFState) (fd : Nat)
    (hfd : st.spidev_fd = some fd) (b : Nat) (hb : b < 8) :
    (read_input st b).2 = .ok (st.regs b INPUT_PORT ^^^ 0xFF) ∧
    (st.regs b INPUT_PORT = 0xFF → (read_input st b).2 = .ok 0) ∧
    (st.regs b INPUT_PORT = 0xFF →
      ∀ p : Int, 0 ≤ p → p ≤ 7 → (digital_read st p b).2 = .ok 0) ∧
    (∀ p : Int, ∀ r : Nat, (digital_read st p b).2 = .ok r →
      r = 0 ∨ r = 1) := by
  obtain ⟨hdec, hbit, -, -⟩ := opcode_decode b hb
  have h1 : (read_input st b).2 = .ok (st.regs b INPUT_PORT ^^^ 0xFF) := by
    simp [read_input, read, spisend, hfd, hbit, hdec]
  refine ⟨h1, ?_, ?_, ?_⟩
  · intro hff
    rw [h1, hff]
    rfl
  · intro hff p hp0 hp7
    simp [digital_read, read_input, read, spisend, hfd, hbit, hdec, hff,
      get_pin_bit_mask_ok p hp0 hp7]
  · intro p r hr
    cases hm : get_pin_bit_mask p with
    | error e =>
      simp [digital_read, read_input, read, spisend, hfd, hbit, hdec, hm]
        at hr
    | ok mask =>
      simp [digital_read, read_input, read, spisend, hfd, hbit, hdec, hm]
        at hr
      split at hr
      · left; omega
      · right; omega

/-- Witness for C3 on the concrete all-`0xFF` state. -/
theorem C3_read_input_inverted_witness :
    (read_input testFFState 0).2 =
      .ok (testFFState.regs 0 INPUT_PORT ^^^ 0xFF) ∧
    (testFFState.regs 0 INPUT_PORT = 0xFF →
      (read_input testFFState 0).2 = .ok 0) ∧
    (testFFState.regs 0 INPUT_PORT = 0xFF →
      ∀ p : Int, 0 ≤ p → p ≤ 7 → (digital_read testFFState p 0).2 = .ok 0) ∧
    (∀ p : Int, ∀ r : Nat, (digital_read testFFState p 0).2 = .ok r →
      r = 0 ∨ r = 1) :=
  C3_read_input_inverted testFFState 0 rfl 0 (by decide)

/-- Closed form of `digital_write` on an open state with an in-range pin
and board: it issues one read frame and one write frame on the output
register and stores the read-modify-write byte there. -/
theorem digital_write_eq (st : PFState) (fd : Nat)
    (hfd : st.spidev_fd = some fd) (p : Int) (hp0 : 0 ≤ p) (hp7 : p ≤ 7)
    (v b : Nat) (hb : b < 8) :
    digital_write st p v b =
      ({ st with
          regs := fun b' r' =>
            if b' = b ∧ r' = OUTPUT_PORT then
              (if v ≠ 0 then st.regs b OUTPUT_PORT ||| (1 <<< p.toNat)
               else Nat.ldiff (st.regs b OUTPUT_PORT) (1 <<< p.toNat))
            else st.regs b' r',
          trace := st.trace ++
            [⟨get_device_opcode b READ_CMD, OUTPUT_PORT, 0⟩,
             ⟨get_device_opcode b WRITE_CMD, OUTPUT_PORT,
              (if v ≠ 0 then st.regs b OUTPUT_PORT ||| (1 <<< p.toNat)
               else Nat.ldiff (st.regs b OUTPUT_PORT) (1 <<< p.toNat))⟩] },
       .ok ()) := by
  obtain ⟨hdecR, hbitR, hdecW, hbitW⟩ := opcode_decode b hb
  simp [digital_write, read_output, read, write_output, write, spisend, hfd,
    hbitR, hdecR, hbitW, hdecW, get_pin_bit_mask_ok p hp0 hp7]

/-- C2: for an in-range pin, `digital_write` reads the output register and
writes back exactly that byte with bit `p` set when the value is truthy and
cleared when it is falsy; every bit other than bit `p`, and every other
register, is unchanged. -/
theorem C2_digital_write_rmw (st : PFState) (fd : Nat)
    (hfd : st.spidev_fd = some fd) (p : Int) (hp0 : 0 ≤ p) (hp7 : p ≤ 7)
    (v b : Nat) (hb : b < 8) :
    (digital_write st p v b).2 = .ok () ∧
    (digital_write st p v b).1.regs b OUTPUT_PORT =
      (if v ≠ 0 then st.regs b OUTPUT_PORT ||| (1 <<< p.toNat)
       else Nat.ldiff (st.regs b OUTPUT_PORT) (1 <<< p.toNat)) ∧
    (((digital_write st p v b).1.regs b OUTPUT_PORT).testBit p.toNat = true ↔
      v ≠ 0) ∧
    (∀ q : Nat, q ≠ p.toNat →
      ((digital_write st p v b).1.regs b OUTPUT_PORT).testBit q =
        (st.regs b OUTPUT_PORT).testBit q) ∧
    (∀ b' r' : Nat, ¬(b' = b ∧ r' = OUTPUT_PORT) →
      (digital_write st p v b).1.regs b' r' = st.regs b' r') := by
  rw [digital_write_eq st fd hfd p hp0 hp7 v b hb]
  refine ⟨rfl, by simp, ?_, ?_, ?_⟩
  · by_cases hv : v = 0 <;>
      simp [hv, Nat.one_shiftLeft, Nat.testBit_ldiff, Nat.testBit_lor,
        Nat.testBit_two_pow_self]
  · intro q hq
    by_cases hv : v = 0 <;>
      simp [hv, Nat.one_shiftLeft, Nat.testBit_ldiff, Nat.testBit_lor,
        Nat.testBit_two_pow_of_ne (fun h => hq h.symm)]
  · intro b' r' hne
    simp [hne]

/-- Witness for C2: pin 3, truthy value, board 0, on the concrete open
state whose output register holds `0xA5`. -/
theorem C2_digital_write_rmw_witness :
    (digital_write testOpenState 3 1 0).2 = .ok () ∧
    (digital_write testOpenState 3 1 0).1.regs 0 OUTPUT_PORT =
      (if (1 : Nat) ≠ 0 then
        testOpenState.regs 0 OUTPUT_PORT ||| (1 <<< (3 : Int).toNat)
       else Nat.ldiff (testOpenState.regs 0 OUTPUT_PORT)
        (1 <<< (3 : Int).toNat)) ∧
    (((digital_write testOpenState 3 1 0).1.regs 0 OUTPUT_PORT).testBit
        (3 : Int).toNat = true ↔ (1 : Nat) ≠ 0) ∧
    (∀ q : Nat, q ≠ (3 : Int).toNat →
      ((digital_write testOpenState 3 1 0).1.regs 0 OUTPUT_PORT).testBit q =
        (testOpenState.regs 0 OUTPUT_PORT).testBit q) ∧
    (∀ b' r' : Nat, ¬(b' = 0 ∧ r' = OUTPUT_PORT) →
      (digital_write testOpenState 3 1 0).1.regs b' r' =
        testOpenState.regs b' r') :=
  C2_digital_write_rmw testOpenState 0 rfl 3 (by decide) (by decide) 1 0
    (by decide)

/-- C4: `init` with `init_ports = true` issues, for each board index 0..7
in order, exactly the write sequence config(0x0A)←8, output data(0x12)←0,
output direction(0x00)←0, input direction(0x01)←0xFF, input
pull-up(0x0D)←0xFF, then output(0x12)←0; `init` with `init_ports = false`
only opens the transport and issues no writes. -/
theorem C4_init_sequence (st : PFState) :
    (init st true).2 = .ok () ∧
    (init st true).1.trace = st.trace ++ init_trace ∧
    init st false = ({ st with spidev_fd := some 0 }, .ok ()) := by
  have hrange : List.range 8 = [0, 1, 2, 3, 4, 5, 6, 7] := rfl
  refine ⟨?_, ?_, rfl⟩ <;>
    simp [init, hrange, init_boards, init_board, write, write_output,
      spisend, get_device_opcode, init_trace, init_board_frames, WRITE_CMD,
      IOCON, GPIOA, IODIRA, IODIRB, GPPUB, OUTPUT_PORT]

/-- Witness for C4: no hypotheses beyond the universally quantified state;
instantiated at the concrete open test state. -/
theorem C4_init_sequence_witness :
    (init testOpenState true).2 = .ok () ∧
    (init testOpenState true).1.trace = testOpenState.trace ++ init_trace ∧
    init testOpenState false =
      ({ testOpenState with spidev_fd := some 0 }, .ok ()) :=
  C4_init_sequence testOpenState

/-- The `get_pin_number` loop only ever inspects the lowest `fuel` bits of
the pattern. -/
theorem get_pin_number_loop_mod : ∀ fuel bp pin : Nat,
    get_pin_number_loop fuel bp pin =
      get_pin_number_loop fuel (bp % 2 ^ fuel) pin := by
  intro fuel
  induction fuel with
  | zero => intro bp pin; rfl
  | succ f ih =>
    intro bp pin
    have hbit : bp % 2 ^ (f + 1) &&& 1 = bp &&& 1 := by
      rw [Nat.and_one_is_mod, Nat.and_one_is_mod,
        Nat.mod_mod_of_dvd bp (dvd_pow_self 2 (Nat.succ_ne_zero f))]
    have hshift : ((bp % 2 ^ (f + 1)) >>> 1) % 2 ^ f = (bp >>> 1) % 2 ^ f := by
      rw [Nat.shiftRight_eq_div_pow, Nat.shiftRight_eq_div_pow, Nat.pow_one,
        Nat.pow_succ, Nat.mul_comm, Nat.mod_mul_right_div_self,
        Nat.mod_mod_of_dvd _ dvd_rfl]
    simp only [get_pin_number_loop, hbit]
    by_cases hc : bp &&& 1 = 0
    · rw [if_pos hc, if_pos hc]
      by_cases hp : pin + 1 > 7
      · rw [if_pos hp, if_pos hp]
      · rw [if_neg hp, if_neg hp, ih (bp >>> 1) (pin + 1),
          ih ((bp % 2 ^ (f + 1)) >>> 1) (pin + 1), hshift]
    · rw [if_neg hc, if_neg hc]

/-- C6: for a bit pattern whose lowest set bit is at position `k ∈ [0,7]`,
`get_pin_number` returns `k`; for a pattern with no set bit in the lowest 8
positions (including 0), it returns the documented fallback 0. -/
theorem C6_get_pin_number (bp : Nat) :
    (∀ k : Nat, k < 8 → bp.testBit k = true →
      (∀ j : Nat, j < k → bp.testBit j = false) → get_pin_number bp = k) ∧
    ((∀ j : Nat, j < 8 → bp.testBit j = false) → get_pin_number bp = 0) := by
  have hmod : get_pin_number bp = get_pin_number (bp % 2 ^ 8) := by
    unfold get_pin_number
    exact get_pin_number_loop_mod 8 bp 0
  have key : ∀ m : Nat, m < 2 ^ 8 →
      ((∀ k : Nat, k < 8 → m.testBit k = true →
        (∀ j : Nat, j < k → m.testBit j = false) → get_pin_number m = k) ∧
      ((∀ j : Nat, j < 8 → m.testBit j = false) → get_pin_number m = 0)) := by
    set_option maxRecDepth 4000 in decide
  obtain ⟨k1, k2⟩ := key (bp % 2 ^ 8) (Nat.mod_lt _ (by norm_num))
  constructor
  · intro k hk hbit hlow
    rw [hmod]
    refine k1 k hk ?_ ?_
    · rw [Nat.testBit_mod_two_pow]
      simp [hk, hbit]
    · intro j hj
      have hj8 : j < 8 := lt_trans hj hk
      rw [Nat.testBit_mod_two_pow]
      simp [hj8, hlow j hj]
  · intro hall
    rw [hmod]
    refine k2 ?_
    intro j hj
    rw [Nat.testBit_mod_two_pow]
    simp [hj, hall j hj]

/-- Witness for C6: pattern 40 = 0b101000 has lowest set bit 3; pattern 256
has no set bit in the lowest 8 positions and falls back to 0. -/
theorem C6_get_pin_number_witness :
    get_pin_number 40 = 3 ∧ get_pin_number 256 = 0 :=
  ⟨(C6_get_pin_number 40).1 3 (by decide) (by decide)
    (by decide),
   (C6_get_pin_number 256).2 (by decide)⟩

end PiFace
